import Mathlib

/-!
Shallow embedding of `src/amazonscraper/client.py` (the single source file of
the repository `amazon-scraper-python`).

Modelling conventions, fixed once for the whole file:

* Python strings are Lean `String`s; character-level operations work on
  `String.data` (a `List Char`).
* Python exceptions are values of `PyErr`; a Python function that can raise
  is embedded as a function into `Except PyErr _`.
* The mutable fields of the `AmazonClient` instance (`current_user_agent_index`,
  `product_dict_list`, `html_pages`, `base_url`) are an explicit `ClientState`
  record threaded through the embedded methods.  Two extra ghost fields
  (`rotations`, a counter of `_change_user_agent` calls, and `requests`, the
  sequence number of HTTP requests actually issued) instrument the state; they
  influence nothing and exist only so that theorems can speak about how often
  the identity was rotated and how many network requests were made.
* The network is an environment `env : Nat -> GetOutcome` giving the outcome of
  the i-th HTTP GET issued in the process (TLS failure, transport failure,
  or an HTTP status with a page).
* The external libraries are modelled at their interfaces:
  `BeautifulSoup` parsing is abstracted by the `Html` / `Container` records
  that hold exactly the selector results the code reads, and
  `urllib.parse.urljoin` is an arbitrary function parameter `urljoin`
  (no claim depends on its computation), so every theorem quantifying over
  `urljoin` holds for the real implementation in particular.
* `time.sleep` has no observable effect in the model (real time is out of
  scope); the call sites are noted in comments.
-/

/-- Python `needle in hay` for strings (substring containment). -/
def listContainsSub (ns : List Char) : List Char → Bool
  | [] => ns.isEmpty
  | c :: rest => ns.isPrefixOf (c :: rest) || listContainsSub ns rest

/-- Python `needle in hay` on `String`s. -/
def pyContains (hay needle : String) : Bool :=
  listContainsSub needle.data hay.data

/-- Python `s.startswith(pre)`. -/
def pyStartswith (s pre : String) : Bool :=
  pre.data.isPrefixOf s.data

/-- Python `s.split(sep)` for a nonempty separator, on char lists; `cur` is
the reversed chunk being built, the fuel (any bound of the remaining length)
makes the recursion structural. -/
def pySplitGo (sep : List Char) : Nat → List Char → List Char →
    List (List Char)
  | _, cur, [] => [cur.reverse]
  | 0, cur, rest => [cur.reverse ++ rest]
  | fuel + 1, cur, c :: rest =>
    if sep.isPrefixOf (c :: rest) then
      cur.reverse :: pySplitGo sep fuel [] ((c :: rest).drop sep.length)
    else pySplitGo sep fuel (c :: cur) rest

/-- Python `s.split(sep)` (nonempty `sep`): the chunks between the
non-overlapping occurrences of `sep`, scanned left to right; never empty as a
list. -/
def pySplit (s sep : String) : List String :=
  (pySplitGo sep.data s.data.length [] s.data).map (fun l => ⟨l⟩)

/-- Python exceptions that the embedded code can raise or catch.
`connectionError` is the builtin `ConnectionError` raised by `_get` on a
non-200 status; `requestsConnectionError` is `requests.exceptions.ConnectionError`
(raised by the requests library for transport failures such as a refused
connection — NOT a subclass of the builtin `ConnectionError`);
`sslError` is `requests.exceptions.SSLError`; `missingSchema` is
`requests.exceptions.MissingSchema`, raised by `requests` when the URL passed
to `session.get` is not a proper URL (in particular when it is `None`). -/
inductive PyErr where
  | connectionError
  | requestsConnectionError
  | sslError
  | missingSchema
  | valueError (msg : String)
  | attributeError
  | indexError
deriving DecidableEq, Repr

/-- Decidable equality for `Except` results (used to evaluate the embedded
fallible functions on concrete inputs). -/
instance {ε α : Type} [DecidableEq ε] [DecidableEq α] :
    DecidableEq (Except ε α) := fun a b =>
  match a, b with
  | .ok x, .ok y =>
    if h : x = y then .isTrue (by rw [h]) else .isFalse (by intro hc; injection hc; contradiction)
  | .error x, .error y =>
    if h : x = y then .isTrue (by rw [h]) else .isFalse (by intro hc; injection hc; contradiction)
  | .ok _, .error _ => .isFalse (by intro hc; exact Except.noConfusion hc)
  | .error _, .ok _ => .isFalse (by intro hc; exact Except.noConfusion hc)

/-- Digit runs with PEP-515 single underscores strictly between digits,
accumulating the value and the number of digits.  `none` on a malformed run.
The first character is checked by the callers to be a digit. -/
def digitsUGo (acc cnt : Nat) : List Char → Option (Nat × Nat)
  | [] => some (acc, cnt)
  | c :: rest =>
    if c.isDigit then digitsUGo (acc * 10 + (c.toNat - 48)) (cnt + 1) rest
    else if c = '_' then
      match rest with
      | c2 :: rest2 =>
        if c2.isDigit then digitsUGo (acc * 10 + (c2.toNat - 48)) (cnt + 1) rest2
        else none
      | [] => none
    else none

/-- A full digit group (as accepted inside Python `int()`/`float()` literals):
nonempty, starts with a digit, single underscores only between digits.
Returns `(value, digit count)`. -/
def digitsUVal : List Char → Option (Nat × Nat)
  | [] => none
  | c :: rest => if c.isDigit then digitsUGo 0 0 (c :: rest) else none

/-- Characters stripped by Python `int()` / `float()` around a literal. -/
def isPySpace (c : Char) : Bool :=
  c = ' ' || c = '\t' || c = '\n' || c = '\r' || c = '\x0b' || c = '\x0c'

/-- Optional sign prefix; returns (negative?, rest). -/
def pySign : List Char → Bool × List Char
  | '+' :: rest => (false, rest)
  | '-' :: rest => (true, rest)
  | cs => (false, cs)

/-- Python `int(s)` on a string: strip, optional sign, digit group.
`none` models the `ValueError` raised on anything else. -/
def pyInt? (s : String) : Option Int :=
  let cs := (s.data.dropWhile isPySpace).reverse.dropWhile isPySpace |>.reverse
  let (neg, cs) := pySign cs
  match digitsUVal cs with
  | some (v, _) => some (if neg then -(v : Int) else (v : Int))
  | none => none

/-- The digits of a mantissa part; an empty part is allowed (e.g. `"4."`,
`".5"`) and contributes value 0 with 0 digits. -/
def mantissaPart : List Char → Option (Nat × Nat)
  | [] => some (0, 0)
  | cs => digitsUVal cs

/-- Split a char list at the first occurrence of one of the given marker
characters; returns the part before and (if a marker was found) the part
after it. -/
def splitAtFirst (marks : List Char) : List Char → List Char × Option (List Char)
  | [] => ([], none)
  | c :: rest =>
    if marks.contains c then ([], some rest)
    else
      let (pre, post) := splitAtFirst marks rest
      (c :: pre, post)

/-- Python `float(s)` restricted to finite decimal/scientific literals:
strip, optional sign, `digits [. digits] [e|E [sign] digits]` with at least
one mantissa digit.  The named special values (`inf`, `nan`, ...) cannot occur
at the call sites in the embedded code (every candidate string starts with a
digit or sign there), so they are not modelled.  `none` models `ValueError`. -/
def pyFloat? (s : String) : Option ℚ :=
  let cs := (s.data.dropWhile isPySpace).reverse.dropWhile isPySpace |>.reverse
  let (neg, cs) := pySign cs
  let (mant, expPart?) := splitAtFirst ['e', 'E'] cs
  let (intPart, fracPart?) := splitAtFirst ['.'] mant
  match mantissaPart intPart, mantissaPart (fracPart?.getD []) with
  | some (iv, ic), some (fv, fc) =>
    if ic + fc = 0 then none
    else
      let m : Int := iv * 10 ^ fc + fv
      let m : Int := if neg then -m else m
      match expPart? with
      | none => some (mkRat m (10 ^ fc))
      | some ecs =>
        let (eneg, ecs) := pySign ecs
        match digitsUVal ecs with
        | some (ev, _) =>
          some (if eneg then mkRat m (10 ^ (fc + ev))
                else mkRat (m * 10 ^ ev) (10 ^ fc))
        | none => none
  | _, _ => none

/-- One backtracking step of the Python regex `\$([\d,]+.\d\d)`: after the
`$`, the greedy group `[\d,]+` first takes `k` characters (counted down from
the maximal run), then `.` must match one non-newline character and `\d\d` two
digits.  Returns the text of group 1. -/
def priceBacktrack (rest : List Char) : Nat → Option (List Char)
  | 0 => none
  | k + 1 =>
    match rest.drop (k + 1) with
    | c :: d1 :: d2 :: _ =>
      if c ≠ '\n' && d1.isDigit && d2.isDigit then
        some (rest.take (k + 1) ++ [c, d1, d2])
      else priceBacktrack rest k
    | _ => priceBacktrack rest k

/-- Attempt to match `\$([\d,]+.\d\d)` at the head of the list. -/
def priceMatchAt : List Char → Option (List Char)
  | '$' :: rest =>
    priceBacktrack rest (rest.takeWhile (fun c => c.isDigit || c = ',')).length
  | _ => none

/-- Leftmost search for `\$([\d,]+.\d\d)` (Python `re.search`), group 1. -/
def priceSearchAux : List Char → Option (List Char)
  | [] => none
  | c :: rest =>
    match priceMatchAt (c :: rest) with
    | some g => some g
    | none => priceSearchAux rest

/-- `re.search(r'\$([\d,]+.\d\d)', s)` group 1 (also the text-node filter of
`product.find_all(text=re.compile('\$[\d,]+.\d\d'))`, which matches exactly
when this search succeeds). -/
def priceSearch (s : String) : Option String :=
  (priceSearchAux s.data).map (fun l => ⟨l⟩)

/-- Leftmost search for `(\d.\d) out of 5` (Python `re.search` in
`_get_rating`), group 1: a digit, any non-newline character, a digit,
followed by the literal text `" out of 5"`. -/
def ratingSearchAux : List Char → Option (List Char)
  | d1 :: c :: d2 :: rest =>
    if d1.isDigit && c ≠ '\n' && d2.isDigit && " out of 5".data.isPrefixOf rest then
      some [d1, c, d2]
    else ratingSearchAux (c :: d2 :: rest)
  | _ => none

/-- String-level wrapper for the rating pattern search. -/
def ratingSearch (s : String) : Option String :=
  (ratingSearchAux s.data).map (fun l => ⟨l⟩)

/-- Everything strictly before the last `')'` reachable by the greedy `.*`
of `/(.*)\)`: Python's `.` does not match a newline, so only the closing
parentheses inside the newline-free segment that starts here count; `none`
when that segment has no `')'` (a later `/` may still match — the caller
keeps scanning). -/
def beforeLastParen (cs : List Char) : Option (List Char) :=
  match (cs.takeWhile (fun c => c ≠ '\n')).reverse.dropWhile (fun c => c ≠ ')') with
  | [] => none
  | _ :: restRev => some restRev.reverse

/-- First match of `re.findall(r'/(.*)\)', s)`: the leftmost `/` that has a
`')'` somewhere after it starts the match; group 1 runs up to the last `')'`.
`none` models the empty `findall` list (so `[0]` raises `IndexError`). -/
def unitExtractAux : List Char → Option (List Char)
  | [] => none
  | '/' :: rest =>
    match beforeLastParen rest with
    | some g => some g
    | none => unitExtractAux rest
  | _ :: rest => unitExtractAux rest

/-- String-level wrapper for the per-unit label extraction. -/
def unitExtract (s : String) : Option String :=
  (unitExtractAux s.data).map (fun l => ⟨l⟩)

/-- The lazy tail of `re.sub(r'\._AC_.*?\.jpg', ...)`: find the earliest
`".jpg"` (the `.*?` part cannot cross a newline), returning what follows it. -/
def findJpgEnd : List Char → Option (List Char)
  | [] => none
  | c :: rest =>
    if ".jpg".data.isPrefixOf (c :: rest) then some ((c :: rest).drop 4)
    else if c = '\n' then none
    else findJpgEnd rest

/-- Fuelled scan for `re.sub(r'\._AC_.*?\.jpg', r'.jpg', url)`: at each
position, if the literal `"._AC_"` starts here and a `".jpg"` completes the
match, replace the whole match by `".jpg"` and continue after it; otherwise
keep the character.  Fuel bounds the recursion (the remaining list shrinks at
every step, so `cs.length` fuel is always enough). -/
def highResGo : Nat → List Char → List Char
  | 0, cs => cs
  | fuel + 1, cs =>
    match cs with
    | [] => []
    | c :: rest =>
      if "._AC_".data.isPrefixOf (c :: rest) then
        match findJpgEnd ((c :: rest).drop 5) with
        | some rest2 => ".jpg".data ++ highResGo fuel rest2
        | none => c :: highResGo fuel rest
      else c :: highResGo fuel rest

/-- `_get_high_res_img_url(url)`: strip the low-resolution thumbnail suffix
modifier. -/
def _get_high_res_img_url (url : String) : String :=
  ⟨highResGo url.data.length url.data⟩

/-- A Python numeric field value: an `int`, a finite `float` (the exact
rational value the decimal literal denotes), or `float('nan')`. -/
inductive PyNum where
  | int (n : Int)
  | float (q : ℚ)
  | nan
deriving DecidableEq, Repr

/-- A value of the collapsed prices dictionary: a single float, a string (a
unit label or the `', '.join` of several rendered elements), or
`float('nan')` for an empty set. -/
inductive PriceVal where
  | float (q : ℚ)
  | str (s : String)
  | nan
deriving DecidableEq, Repr

/-- Fraction digits of `r / d` by repeated scaling (long division), with
fuel.  Used only to render a float the way `str()` shows it. -/
def fracDigitsGo : Nat → Nat → Nat → List Char
  | 0, _, _ => []
  | _, 0, _ => []
  | fuel + 1, r, d =>
    (Char.ofNat (48 + r * 10 / d)) :: fracDigitsGo fuel (r * 10 % d) d

/-- Python `str()` of a parsed float value: sign, integer part, `'.'`, and the
fraction digits (at least one, `"4.0"` style).  Every float built by the
embedded code comes from a decimal literal, whose fraction terminates; the
fuel of 30 digits is never exhausted on such values.  Only the `', '.join`
branch of `_get_prices` (two or more set elements — exercised by no claim)
consumes this rendering. -/
def decRepr (q : ℚ) : String :=
  let sign := if q < 0 then "-" else ""
  let a := q.num.natAbs
  let ip := a / q.den
  let r := a % q.den
  let frac : String := if r = 0 then "0" else ⟨fracDigitsGo 30 r q.den⟩
  sign ++ toString ip ++ "." ++ frac

/-- Python `set.add` observed through iteration: sets are modelled as
duplicate-free lists in insertion order.  (CPython iterates sets in an
unspecified hash order; the order is observable only in the `', '.join`
branch for two or more elements, which no claim exercises.) -/
def setAdd {α : Type} [DecidableEq α] (l : List α) (a : α) : List α :=
  if l.contains a then l else l ++ [a]

/-- The dict comprehension closing `_get_prices`, for a set of floats:
`value.pop()` for a singleton, `', '.join(map(str, value))` for two or more,
`float('nan')` for the empty set. -/
def collapseFloatSet : List ℚ → PriceVal
  | [] => .nan
  | [q] => .float q
  | qs => .str (String.intercalate ", " (qs.map decRepr))

/-- The same comprehension for the set of unit labels (strings). -/
def collapseStrSet : List String → PriceVal
  | [] => .nan
  | [s] => .str s
  | ss => .str (String.intercalate ", " ss)

/-- One text node of a product container, as consumed by `_get_prices`: its
text, and whether its grandparent tag (`raw_price.parent.parent`) carries the
attribute `data-a-strike="true"`. -/
structure TextNode where
  text : String
  strike : Bool
deriving DecidableEq, Repr

/-- A product container (one element of `soup.select(...)` for a product
selector).  The BeautifulSoup subtree is abstracted by exactly the reads the
code performs on it: `select sel` is `_css_select(product, sel)` — the
stripped text of the first match of the CSS selector `sel`, `none` when
nothing matches (the source helper `_css_select` is folded into this field);
`strRepr` is `str(product)`, searched by `_get_rating`; `textNodes` are the
text nodes of the subtree in document order, filtered by `find_all` in
`_get_prices`. -/
structure Container where
  select : String → Option String
  strRepr : String
  textNodes : List TextNode

/-- A fetched page: `text` is `response.text` (checked by `_check_page` and
parsed by BeautifulSoup); the four `products*` lists are the results of
`soup.select` on the `product` selector of each layout schema of
`CSS_SELECTORS`, in the dict's insertion order mobile, mobile_grid, desktop,
desktop_2; `nextHref` is the `href` attribute of the first match of the fixed
pagination selector `CSS_SELECTORS['mobile']['next_page_url']`, `none` when
it matches nothing. -/
structure Html where
  text : String
  productsMobile : List Container
  productsMobileGrid : List Container
  productsDesktop : List Container
  productsDesktop2 : List Container
  nextHref : Option String

/-- The `CSS_SELECTORS.values()` iteration of `_extract_page`, reduced to the
per-schema container lists it reads from the page. -/
def schemaProducts (page : Html) : List (List Container) :=
  [page.productsMobile, page.productsMobileGrid, page.productsDesktop,
   page.productsDesktop2]

/-- `_USER_AGENT_LIST` (only its length matters to the embedded code). -/
def _USER_AGENT_LIST : List String :=
  ["Mozilla/5.0 (Linux; Android 7.0; SM-A520F Build/NRD90M; wv) AppleWebKit/537.36 (KHTML, like Gecko) Version/4.0 Chrome/65.0.3325.109 Mobile Safari/537.36",
   "Mozilla/5.0 (Macintosh; Intel Mac OS X 10_13_5) AppleWebKit/537.36 (KHTML, like Gecko) Chrome/67.0.3396.79 Safari/537.36"]

/-- `_MAX_TRIAL_REQUESTS`. -/
def _MAX_TRIAL_REQUESTS : Nat := 5

/-- `_WAIT_TIME_BETWEEN_REQUESTS` (the `time.sleep` between retries has no
observable effect in the model). -/
def _WAIT_TIME_BETWEEN_REQUESTS : Nat := 1

/-- One entry of `product_dict_list`: the dict built per product in
`_extract_page`, in key order, merged (`update`) with the three keys of
`_get_prices`. -/
structure ProductRecord where
  title : String
  rating : PyNum
  review_nb : PyNum
  img : String
  url : String
  asin : String
  prices_per_unit : PriceVal
  units : PriceVal
  prices_main : PriceVal
deriving DecidableEq, Repr

/-- The dictionary returned by `_get_prices`, keys in their literal order. -/
structure PricesResult where
  prices_per_unit : PriceVal
  units : PriceVal
  prices_main : PriceVal
deriving DecidableEq, Repr

/-- The mutable `AmazonClient` instance state.  `userAgentIndex`,
`productDictList`, `htmlPages` and `baseUrl` are the instance attributes
`current_user_agent_index`, `product_dict_list`, `html_pages` and `base_url`
(`baseUrl` is `none` before `_update_headers` first sets it; reading it then
raises `AttributeError`).  `rotations` and `requests` are ghost
instrumentation: the number of `_change_user_agent` calls and of HTTP
requests issued so far; nothing reads them. -/
structure ClientState where
  userAgentIndex : Nat
  productDictList : List ProductRecord
  htmlPages : List Html
  baseUrl : Option String
  rotations : Nat
  requests : Nat

/-- `AmazonClient.__init__`: index 0 into the user-agent list, empty record
and page lists, `base_url` not yet set; ghost counters at 0.  (The `requests`
session object and the literal `headers` dict carry no information the model
reads beyond the user-agent index.) -/
def initClient : ClientState :=
  { userAgentIndex := 0, productDictList := [], htmlPages := [],
    baseUrl := none, rotations := 0, requests := 0 }

/-- `_change_user_agent`: advance the index cyclically (the header update it
performs is determined by the index).  The ghost rotation counter records the
call. -/
def _change_user_agent (st : ClientState) : ClientState :=
  { st with userAgentIndex := (st.userAgentIndex + 1) % _USER_AGENT_LIST.length,
            rotations := st.rotations + 1 }

/-- `invalid_keywords` of `_check_page`. -/
def invalid_keywords : List String :=
  ["Sign in for the best experience", "The request could not be satisfied.",
   "Robot Check"]

/-- `_check_page(html_content)`: the page is valid iff it contains none of
the block-page indicator phrases. -/
def _check_page (html_content : String) : Bool :=
  !(invalid_keywords.any (fun keyword => pyContains html_content keyword))

/-- What one issued HTTP GET can come back with: a TLS failure
(`requests.exceptions.SSLError`), a transport failure
(`requests.exceptions.ConnectionError`, e.g. a refused connection — raised by
the requests library, not the builtin), or an HTTP response with a status
code and a page. -/
inductive GetOutcome where
  | sslError
  | reqConnError
  | status (code : Nat) (page : Html)

/-- `_get(url)` applied to one outcome: re-raise the library's exception, or
raise the builtin `ConnectionError` on a non-200 status, or return the
response. -/
def pyGetOutcome : GetOutcome → Except PyErr Html
  | .sslError => .error .sslError
  | .reqConnError => .error .requestsConnectionError
  | .status code page =>
    if code ≠ 200 then .error .connectionError else .ok page

/-- Which exceptions `except (requests.exceptions.SSLError, ConnectionError)`
in `_get_page_html` catches: `SSLError` by its first clause and the builtin
`ConnectionError` (raised by `_get`) by its second.
`requests.exceptions.ConnectionError` and `requests.exceptions.MissingSchema`
are NOT subclasses of the builtin `ConnectionError` and escape, as does every
other exception. -/
def caughtByFetch : PyErr → Bool
  | .sslError => true
  | .connectionError => true
  | _ => false

/-- The retry loop of `_get_page_html`, by remaining trials.  `url` is the
`search_url` argument: when it is `None` (Python passes the result of
`_get_next_page_url` here), `session.get` raises
`requests.exceptions.MissingSchema` while preparing the URL, before any
request is issued; that exception is not caught.  Otherwise one outcome is
consumed from the environment: a caught exception or an invalid page leads to
`_change_user_agent`, `time.sleep` (unmodelled) and the next trial; a valid
page is returned; an uncaught exception propagates.  Exhausted trials raise
`ValueError('No valid pages found!')`. -/
def getPageHtmlGo (env : Nat → GetOutcome) (url : Option String) :
    Nat → ClientState → Except PyErr Html × ClientState
  | 0, st => (.error (.valueError "No valid pages found!"), st)
  | fuel + 1, st =>
    match url with
    | none => (.error .missingSchema, st)
    | some _ =>
      let o := env st.requests
      let st1 := { st with requests := st.requests + 1 }
      match pyGetOutcome o with
      | .ok page =>
        if _check_page page.text then (.ok page, st1)
        else getPageHtmlGo env url fuel (_change_user_agent st1)
      | .error e =>
        if caughtByFetch e then getPageHtmlGo env url fuel (_change_user_agent st1)
        else (.error e, st1)

/-- `_get_page_html(search_url)`: the retry loop with the full trial budget. -/
def _get_page_html (env : Nat → GetOutcome) (url : Option String)
    (st : ClientState) : Except PyErr Html × ClientState :=
  getPageHtmlGo env url _MAX_TRIAL_REQUESTS st

/-- `_update_headers(search_url)`: `search_url.split("://")[1]` raises
`IndexError` when the separator is absent; otherwise the domain is the part
before the first `/`, and `base_url` (and the Host header, unmodelled) is set
from it. -/
def _update_headers (search_url : String) (st : ClientState) :
    Except PyErr ClientState :=
  match (pySplit search_url "://").drop 1 with
  | [] => .error .indexError
  | p :: _ =>
    match pySplit p "/" with
    | [] => .ok st
    | domain :: _ =>
      .ok { st with baseUrl := some ("https://" ++ domain ++ "/") }

/-- `_get_search_url(keywords)` (`urljoin` is the external
`urllib.parse.urljoin`, a parameter of the model). -/
def _get_search_url (urljoin : String → String → String)
    (keywords : String) : String :=
  urljoin "https://www.amazon.com/" ("s?k=" ++ keywords)

/-- The selector fallback loop of `_get_title`: the first selector whose
(stripped) text is truthy (non-`None` and nonempty) wins. -/
def titleGo (p : Container) : List String → String
  | [] => "Title not found"
  | sel :: rest =>
    match p.select sel with
    | some t => if t ≠ "" then t else titleGo p rest
    | none => titleGo p rest

/-- `_get_title(product)`. -/
def _get_title (p : Container) : String :=
  titleGo p ["h5 span", "a.s-access-detail-page > h2", "div div.sg-row h5 > span"]

/-- `_get_rating(product)`: search `str(product)` for `(\d.\d) out of 5`;
`float('nan')` when absent; otherwise `float(group.replace(',', '.'))`, whose
`ValueError` (middle character not coercible) propagates — there is no
`try` here.  Replacing the single-character pattern `','` is a character map. -/
def _get_rating (p : Container) : Except PyErr PyNum :=
  match ratingSearch p.strRepr with
  | none => .ok .nan
  | some g =>
    match pyFloat? ⟨g.data.map (fun c => if c = ',' then '.' else c)⟩ with
    | some q => .ok (.float q)
    | none => .error (.valueError "could not convert string to float")

/-- `n_ratings_selectors` of `_get_n_ratings`. -/
def n_ratings_selectors : List String :=
  ["div.a-row.a-size-small span.a-size-base",
   "div div.sg-row .a-spacing-top-mini span.a-size-small",
   "div.a-column.a-span5.a-span-last > div.a-row.a-spacing-mini > a.a-size-small.a-link-normal.a-text-normal"]

/-- The selector loop of `_get_n_ratings`.  When a selector matches nothing,
`_css_select` returns `None` and `n_ratings.replace(',', '')` raises
`AttributeError`, which `except ValueError` does NOT catch — it propagates.
When it matches, `int(...)` of the comma-stripped text is returned;
its `ValueError` is caught and the next selector is tried;
`float('nan')` after the last. -/
def nRatingsGo (p : Container) : List String → Except PyErr PyNum
  | [] => .ok .nan
  | sel :: rest =>
    match p.select sel with
    | none => .error .attributeError
    | some s =>
      match pyInt? ⟨s.data.filter (fun c => c ≠ ',')⟩ with
      | some n => .ok (.int n)
      | none => nRatingsGo p rest

/-- `_get_n_ratings(product)`. -/
def _get_n_ratings (p : Container) : Except PyErr PyNum :=
  nRatingsGo p n_ratings_selectors

/-- `_get_img(product)`: the (stripped) text of the first `img[src]` match
(`_css_select` reads `.text`, not the `src` attribute — faithful to the
source), upgraded by `_get_high_res_img_url` when truthy, `''` otherwise. -/
def _get_img (p : Container) : String :=
  match p.select "img[src]" with
  | some u => if u ≠ "" then _get_high_res_img_url u else ""
  | none => ""

/-- `_get_url(product)`: `urljoin(self.base_url, url)` when the selected text
is truthy (`base_url` unset raises `AttributeError`), `''` otherwise. -/
def _get_url (urljoin : String → String → String) (baseUrl : Option String)
    (p : Container) : Except PyErr String :=
  match p.select "a[href]" with
  | some u =>
    if u ≠ "" then
      match baseUrl with
      | some b => .ok (urljoin b u)
      | none => .error .attributeError
    else .ok ""
  | none => .ok ""

/-- `_get_asin(product)`: the last `/`-separated segment of `_get_url`
(Python `split('/')` never returns an empty list, so `[-1]` is its last
element). -/
def _get_asin (urljoin : String → String → String) (baseUrl : Option String)
    (p : Container) : Except PyErr String := do
  let url ← _get_url urljoin baseUrl p
  .ok ((pySplit url "/").getLastD "")

/-- The fragment loop of `_get_prices`, over the `(text node, group 1)` pairs
produced by `find_all` + `re.search`, threading the three accumulator sets.
Per fragment: `float(group)` first (its `ValueError` — e.g. a comma in the
group — propagates, even for fragments that the next line would skip); then
skip when the grandparent is flagged `data-a-strike="true"` or the whole
fragment text equals the literal string `'$0.00'` (`raw_price == '$0.00'`
compares the `NavigableString` to that text, NOT the parsed value to zero);
then a fragment starting with `'('` and containing `'/'` feeds the per-unit
price and unit sets (an absent closing parenthesis makes `findall` empty and
`[0]` raise `IndexError`); anything else feeds the main price set. -/
def pricesGo : List (TextNode × String) → List ℚ → List String → List ℚ →
    Except PyErr PricesResult
  | [], ppu, us, pm =>
    .ok { prices_per_unit := collapseFloatSet ppu, units := collapseStrSet us,
          prices_main := collapseFloatSet pm }
  | (f, g) :: rest, ppu, us, pm =>
    match pyFloat? g with
    | none => .error (.valueError "could not convert string to float")
    | some price =>
      if f.strike || f.text = "$0.00" then pricesGo rest ppu us pm
      else if pyStartswith f.text "(" && pyContains f.text "/" then
        match unitExtract f.text with
        | none => .error .indexError
        | some u => pricesGo rest (setAdd ppu price) (setAdd us u) pm
      else pricesGo rest ppu us (setAdd pm price)

/-- `_get_prices(product)`: `find_all(text=re.compile('\$[\d,]+.\d\d'))`
keeps exactly the text nodes on which the price search succeeds (paired here
with the group the loop body re-extracts via `re.search`), then the fragment
loop and the collapsing dict comprehension run. -/
def _get_prices (p : Container) : Except PyErr PricesResult :=
  pricesGo (p.textNodes.filterMap
    (fun f => (priceSearch f.text).map (fun g => (f, g)))) [] [] []

/-- The `product_dict` built per container in `_extract_page` (dict literal
evaluated in key order, then `update`d with the `_get_prices` dict); the
first extractor that raises aborts the whole product. -/
def productDictOf (urljoin : String → String → String)
    (baseUrl : Option String) (p : Container) : Except PyErr ProductRecord := do
  let title := _get_title p
  let rating ← _get_rating p
  let review_nb ← _get_n_ratings p
  let img := _get_img p
  let url ← _get_url urljoin baseUrl p
  let asin ← _get_asin urljoin baseUrl p
  let pr ← _get_prices p
  .ok { title := title, rating := rating, review_nb := review_nb, img := img,
        url := url, asin := asin, prices_per_unit := pr.prices_per_unit,
        units := pr.units, prices_main := pr.prices_main }

/-- The first non-empty `soup.select` result among the schemas, in
`CSS_SELECTORS` order (`break` on the first match).  When every selector
matches nothing, the loop leaves `products` bound to the last — empty —
result, so the value is `[]`. -/
def firstNonempty : List (List Container) → List Container
  | [] => []
  | l :: ls => if l.isEmpty then firstNonempty ls else l

/-- The containers `_extract_page` iterates over for a page. -/
def resolvedContainers (page : Html) : List Container :=
  firstNonempty (schemaProducts page)

/-- The product loop of `_extract_page`: before each container the
accumulated length is checked against `max_product_nb` (`break` once
reached); extraction failures propagate, keeping the records appended so
far.  Returns the exception, if any, and the grown record list. -/
def extractLoop (pd : Container → Except PyErr ProductRecord)
    (max_product_nb : Nat) :
    List Container → List ProductRecord → Option PyErr × List ProductRecord
  | [], acc => (none, acc)
  | p :: rest, acc =>
    if max_product_nb ≤ acc.length then (none, acc)
    else
      match pd p with
      | .error e => (some e, acc)
      | .ok r => extractLoop pd max_product_nb rest (acc ++ [r])

/-- `_get_next_page_url(soup)`: the fixed mobile pagination selector,
regardless of which schema matched; `urljoin(self.base_url, href)` on a
match (`base_url` unset would raise `AttributeError`), `None` otherwise. -/
def _get_next_page_url (urljoin : String → String → String)
    (baseUrl : Option String) (page : Html) : Except PyErr (Option String) :=
  match page.nextHref with
  | none => .ok none
  | some href =>
    match baseUrl with
    | none => .error .attributeError
    | some b => .ok (some (urljoin b href))

/-- `_extract_page(page, max_product_nb)`: resolve the containers, run the
product loop (mutating `product_dict_list`), then — only when no extractor
raised — resolve and return the next-page URL. -/
def _extract_page (urljoin : String → String → String) (page : Html)
    (max_product_nb : Nat) (st : ClientState) :
    Except PyErr (Option String) × ClientState :=
  match extractLoop (productDictOf urljoin st.baseUrl) max_product_nb
      (resolvedContainers page) st.productDictList with
  | (some e, acc) => (.error e, { st with productDictList := acc })
  | (none, acc) =>
    match _get_next_page_url urljoin st.baseUrl page with
    | .error e => (.error e, { st with productDictList := acc })
    | .ok next => (.ok next, { st with productDictList := acc })

/-- Result of a `_get_products` call: the returned record list, a propagated
exception, or fuel exhaustion of the model (the `while` loop of the source
can run forever on a cyclic next-page chain; `fuelOut` marks runs the chosen
fuel cannot finish and is provably avoided in every theorem below). -/
inductive RunResult where
  | ok (records : List ProductRecord)
  | exn (e : PyErr)
  | fuelOut
deriving DecidableEq, Repr

/-- The `while len(self.product_dict_list) < max_product_nb` loop of
`_get_products`: fetch the current URL, append the page to `html_pages`,
extract (growing `product_dict_list`), continue with the returned next-page
URL — which the source never checks for `None` before passing it back to
`_get_page_html`. -/
def getProductsLoop (urljoin : String → String → String)
    (env : Nat → GetOutcome) (max_product_nb : Nat) :
    Nat → Option String → ClientState → RunResult × ClientState
  | 0, _, st => (.fuelOut, st)
  | fuel + 1, url, st =>
    if st.productDictList.length < max_product_nb then
      match _get_page_html env url st with
      | (.error e, st1) => (.exn e, st1)
      | (.ok page, st1) =>
        let st2 := { st1 with htmlPages := st1.htmlPages ++ [page] }
        match _extract_page urljoin page max_product_nb st2 with
        | (.error e, st3) => (.exn e, st3)
        | (.ok next, st3) => getProductsLoop urljoin env max_product_nb fuel next st3
    else (.ok st.productDictList, st)

/-- `_get_products(keywords, search_url, max_product_nb)`: build the search
URL from the keywords when `search_url` is falsy (empty), set the headers
(raising `IndexError` on a URL without `://`), then run the collection loop.
`fuel` bounds the modelled loop only. -/
def _get_products (urljoin : String → String → String)
    (env : Nat → GetOutcome) (keywords search_url : String)
    (max_product_nb fuel : Nat) (st : ClientState) : RunResult × ClientState :=
  let url := if search_url = "" then _get_search_url urljoin keywords
             else search_url
  match _update_headers url st with
  | .error e => (.exn e, st)
  | .ok st1 => getProductsLoop urljoin env max_product_nb fuel (some url) st1

/-- A transiently failing fetch attempt, as `_get_page_html` recovers from
it: `_get` raised an exception the `except` clause catches (a TLS-level
`SSLError`, or the builtin `ConnectionError` it raises on a non-success
status), or the response was a page failing `_check_page`. -/
def failsTransiently (o : GetOutcome) : Bool :=
  match pyGetOutcome o with
  | .ok page => !(_check_page page.text)
  | .error e => caughtByFetch e

/-- Iterated per-attempt state update of the retry loop: consume one request
and rotate the identity, `n` times. -/
def rotIter : Nat → ClientState → ClientState
  | 0, st => st
  | n + 1, st => rotIter n (_change_user_agent { st with requests := st.requests + 1 })

/-- The containers one page contributes to the product loop. -/
def pageContainers (page : Html) : List Container :=
  resolvedContainers page

/-- How many pages the collection loop fetches before the running total
covers `deficit` more records: none when the deficit is already met,
otherwise one plus whatever the rest must cover after this page's
containers. -/
def pagesToFetch (deficit : Nat) : List (List Container) → Nat
  | [] => 0
  | cs :: rest =>
    if deficit = 0 then 0 else 1 + pagesToFetch (deficit - cs.length) rest

/-- A page with nothing on it (the `List.getD` default in session
statements). -/
def emptyHtml : Html :=
  { text := "", productsMobile := [], productsMobileGrid := [],
    productsDesktop := [], productsDesktop2 := [], nextHref := none }

/-- The environment serves the given pages as successive 200-status
responses starting at request number `start`. -/
def servesPages (env : Nat → GetOutcome) (start : Nat) (pages : List Html) : Prop :=
  ∀ i, i < pages.length → env (start + i) = .status 200 (pages.getD i emptyHtml)

/-- A concrete instantiation of the external `urljoin` parameter for
witnesses: keep the relative part.  (Theorems hold for every `urljoin`.) -/
def idJoin : String → String → String := fun _ s => s

/-- A default record (used only as a `getD` fallback when turning a
successful extraction into a total function for witness statements). -/
def defaultRecord : ProductRecord :=
  { title := "", rating := .nan, review_nb := .nan, img := "", url := "",
    asin := "", prices_per_unit := .nan, units := .nan, prices_main := .nan }

/-- Witness container: every selector misses; no text; no text nodes. -/
def noMatchContainer : Container :=
  { select := fun _ => none, strRepr := "", textNodes := [] }

/-- Witness container: only the first review-count selector matches, with
the given text (e.g. a digit string). -/
def reviewContainer (s : String) : Container :=
  { select := fun sel => if sel = "div.a-row.a-size-small span.a-size-base"
                         then some s else none,
    strRepr := "", textNodes := [] }

/-- The record `productDictOf` produces for `reviewContainer s` when `s`
parses as an int (total wrapper used by witnesses). -/
def reviewRecord (s : String) : ProductRecord :=
  { defaultRecord with
    title := "Title not found",
    review_nb := (match pyInt? s with | some n => PyNum.int n | none => PyNum.nan) }

/-- C4 fixture: the three-fragment container of the spec example —
`$19.99` normal, `$29.99` strikethrough-flagged, `($4.00/oz)` normal. -/
def c4ExampleContainer : Container :=
  { select := fun _ => none, strRepr := "",
    textNodes := [{ text := "$19.99", strike := false },
                  { text := "$29.99", strike := true },
                  { text := "($4.00/oz)", strike := false }] }

/-- C4 counterexample fixture: one zero-valued per-unit fragment. -/
def c4ZeroContainer : Container :=
  { select := fun _ => none, strRepr := "",
    textNodes := [{ text := "($0.00/oz)", strike := false }] }

/-- C4 fixture: a lone fragment whose whole text is the literal `$0.00`. -/
def c4LiteralZeroContainer (b : Bool) : Container :=
  { select := fun _ => none, strRepr := "",
    textNodes := [{ text := "$0.00", strike := b }] }

/-- C1 fixture: a listing page with ten products and no next-page link. -/
def c1Page : Html :=
  { text := "listing", productsMobile := List.replicate 10 (reviewContainer "7"),
    productsMobileGrid := [], productsDesktop := [], productsDesktop2 := [],
    nextHref := none }

/-- C1 fixture environment: every request returns that page with status 200. -/
def c1Env : Nat → GetOutcome := fun _ => .status 200 c1Page

/-- C8 fixtures: a block page and a valid page, served in that order. -/
def robotPage : Html :=
  { text := "Robot Check", productsMobile := [], productsMobileGrid := [],
    productsDesktop := [], productsDesktop2 := [], nextHref := none }

/-- A page that passes the validity check (no block phrase). -/
def goodPage : Html :=
  { text := "listing", productsMobile := [], productsMobileGrid := [],
    productsDesktop := [], productsDesktop2 := [], nextHref := none }

/-- C8 environment: first a block page, then valid pages. -/
def c8Env : Nat → GetOutcome :=
  fun n => if n = 0 then .status 200 robotPage else .status 200 goodPage

/-- C6 environment: every request comes back with HTTP status 500. -/
def c6Env : Nat → GetOutcome := fun _ => .status 500 goodPage

/-- C7 fixture: a page whose mobile (first-priority) container selector
matches nothing while the mobile-grid (second-priority) one matches. -/
def c7Page : Html :=
  { text := "listing", productsMobile := [],
    productsMobileGrid := [reviewContainer "3"], productsDesktop := [],
    productsDesktop2 := [], nextHref := some "/next" }

/-- C7 fixture: a page no schema matches, with a next-page link. -/
def c7NoMatchPage : Html :=
  { text := "listing", productsMobile := [], productsMobileGrid := [],
    productsDesktop := [], productsDesktop2 := [], nextHref := some "/next" }

/-- C3 fixtures: first page with three products and a next link, second page
with four products and a next link (the spec's termination example:
target 5, pages yielding 3 then 4). -/
def c3Page1 : Html :=
  { text := "listing one",
    productsMobile := [reviewContainer "1", reviewContainer "2", reviewContainer "3"],
    productsMobileGrid := [], productsDesktop := [], productsDesktop2 := [],
    nextHref := some "/page2" }

/-- Second C3 page. -/
def c3Page2 : Html :=
  { text := "listing two",
    productsMobile := [reviewContainer "4", reviewContainer "5",
                       reviewContainer "6", reviewContainer "7"],
    productsMobileGrid := [], productsDesktop := [], productsDesktop2 := [],
    nextHref := some "/page3" }

/-- C3 environment: page one on the first request, page two afterwards. -/
def c3Env : Nat → GetOutcome :=
  fun n => if n = 0 then .status 200 c3Page1 else .status 200 c3Page2

/-- The extraction function of the C3/C10 witnesses as a total function. -/
def extractTotal (p : Container) : ProductRecord :=
  ((productDictOf idJoin (some "https://www.amazon.com/") p).toOption).getD
    defaultRecord

/-- C9 fixture: a page with two products and a next link. -/
def c9Page : Html :=
  { text := "listing", productsMobile := [reviewContainer "7", reviewContainer "8"],
    productsMobileGrid := [], productsDesktop := [], productsDesktop2 := [],
    nextHref := some "/page2" }

/-- C9 environment: always that page. -/
def c9Env : Nat → GetOutcome := fun _ => .status 200 c9Page

/-- C9: first session on a fresh client, target one record. -/
def c9Run1 : RunResult × ClientState :=
  _get_products idJoin c9Env "" "https://www.amazon.com/s?k=q" 1 3 initClient

/-- C9: second session on the same client, same target. -/
def c9Run2 : RunResult × ClientState :=
  _get_products idJoin c9Env "" "https://www.amazon.com/s?k=q" 1 3 c9Run1.2

/-- C4 crash fixture: a fragment whose regex group keeps the thousands
comma, which `float()` rejects. -/
def c4CommaContainer : Container :=
  { select := fun _ => none, strRepr := "",
    textNodes := [{ text := "$1,299.99", strike := false }] }

/-- C4 crash fixture: a parenthesized `/`-fragment with no closing
parenthesis, so `re.findall(r'/(.*)\)', ...)` is empty and `[0]` raises. -/
def c4NoParenContainer : Container :=
  { select := fun _ => none, strRepr := "",
    textNodes := [{ text := "($4.00/oz", strike := false }] }

/-- What the amended C4 claim prescribes for one currency fragment. -/
inductive PriceAction where
  | abort (e : PyErr)
  | skip
  | perUnit (amount : ℚ) (unit : String)
  | main (amount : ℚ)

/-- Written from the amended C4 claim, not from the source: the amount is
parsed first — a group `float()` rejects (e.g. one keeping a thousands
comma) aborts extraction with `ValueError`; then a fragment is skipped when
its enclosing markup is strikethrough-flagged or its whole text is the
literal `'$0.00'`; then a fragment starting with `'('` and containing `'/'`
is a per-unit price whose unit is the text between the first `'/'` and the
last following `')'` on the same line — no such `')'` aborts with
`IndexError`; every other fragment is a main price. -/
def claimFragmentRule (f : TextNode) (g : String) : PriceAction :=
  match pyFloat? g with
  | none => .abort (.valueError "could not convert string to float")
  | some amount =>
    if f.strike || f.text = "$0.00" then .skip
    else if pyStartswith f.text "(" && pyContains f.text "/" then
      match unitExtract f.text with
      | none => .abort .indexError
      | some u => .perUnit amount u
    else .main amount

/-- Spec-side driver for the amended C4 claim: apply the per-fragment rule
left to right, collecting the two price sets and the unit set, and collapse
them as the claim's contract prescribes. -/
def claimClassifyGo : List (TextNode × String) → List ℚ → List String →
    List ℚ → Except PyErr PricesResult
  | [], ppu, us, pm =>
    .ok { prices_per_unit := collapseFloatSet ppu, units := collapseStrSet us,
          prices_main := collapseFloatSet pm }
  | (f, g) :: rest, ppu, us, pm =>
    match claimFragmentRule f g with
    | .abort e => .error e
    | .skip => claimClassifyGo rest ppu us pm
    | .perUnit amount u => claimClassifyGo rest (setAdd ppu amount) (setAdd us u) pm
    | .main amount => claimClassifyGo rest ppu us (setAdd pm amount)

/-- Spec-side classifier for the amended C4 claim: the currency-matching
text fragments of the container, in document order, processed by the
per-fragment rule. -/
def claimClassify (p : Container) : Except PyErr PricesResult :=
  claimClassifyGo (p.textNodes.filterMap
    (fun f => (priceSearch f.text).map (fun g => (f, g)))) [] [] []

/-- C10 fixtures: two pages with distinguishable products (review counts 21,
22 on the first page, 23 on the second), each with a next link. -/
def c10Page1 : Html :=
  { text := "listing one",
    productsMobile := [reviewContainer "21", reviewContainer "22"],
    productsMobileGrid := [], productsDesktop := [], productsDesktop2 := [],
    nextHref := some "/page2" }

/-- Second C10 page. -/
def c10Page2 : Html :=
  { text := "listing two", productsMobile := [reviewContainer "23"],
    productsMobileGrid := [], productsDesktop := [], productsDesktop2 := [],
    nextHref := some "/page3" }

/-- C10 environment: page one first, then page two. -/
def c10Env : Nat → GetOutcome :=
  fun n => if n = 0 then .status 200 c10Page1 else .status 200 c10Page2

theorem firstNonempty_cons (l : List Container) (ls : List (List Container)) :
    firstNonempty (l :: ls) = if l.isEmpty then firstNonempty ls else l := rfl

theorem firstNonempty_of_first (ls : List (List Container)) :
    ∀ i, i < ls.length → (∀ j, j < i → ls.getD j [] = []) →
    ls.getD i [] ≠ [] → firstNonempty ls = ls.getD i [] := by
  induction ls with
  | nil => intro i hi _ _; simp at hi
  | cons l ls ih =>
    intro i hi hb hne
    cases i with
    | zero =>
      simp only [List.getD_cons_zero] at hne ⊢
      rw [firstNonempty_cons]
      simp [List.isEmpty_iff, hne]
    | succ i =>
      have hl : l = [] := by
        have := hb 0 (Nat.succ_pos i)
        simpa using this
      rw [firstNonempty_cons, List.getD_cons_succ]
      simp only [hl, List.isEmpty_nil, if_true]
      exact ih i (by simpa using Nat.lt_of_succ_lt_succ hi)
        (fun j hj => by have := hb (j + 1) (Nat.succ_lt_succ hj); simpa using this)
        (by simpa using hne)

theorem firstNonempty_of_all_empty (ls : List (List Container))
    (h : ∀ l ∈ ls, l = []) : firstNonempty ls = [] := by
  induction ls with
  | nil => rfl
  | cons l ls ih =>
    have hl : l = [] := h l (List.mem_cons_self l ls)
    rw [firstNonempty_cons]
    simp only [hl, List.isEmpty_nil, if_true]
    exact ih (fun x hx => h x (List.mem_cons_of_mem l hx))

theorem extractLoop_all_ok (pd : Container → Except PyErr ProductRecord)
    (max_product_nb : Nat) (f : Container → ProductRecord) :
    ∀ (cs : List Container) (acc : List ProductRecord),
    (∀ c ∈ cs, pd c = .ok (f c)) →
    extractLoop pd max_product_nb cs acc =
      (none, acc ++ (cs.take (max_product_nb - acc.length)).map f) := by
  intro cs
  induction cs with
  | nil => intro acc _; simp [extractLoop]
  | cons c cs ih =>
    intro acc h
    by_cases hfull : max_product_nb ≤ acc.length
    · have hz : max_product_nb - acc.length = 0 := Nat.sub_eq_zero_of_le hfull
      simp [extractLoop, hfull, hz]
    · have hlt : acc.length < max_product_nb := Nat.lt_of_not_le hfull
      have hd : max_product_nb - acc.length = (max_product_nb - (acc.length + 1)) + 1 := by
        omega
      rw [hd]
      simp only [extractLoop, hfull, if_false, h c (List.mem_cons_self c cs),
        List.take_succ_cons, List.map_cons]
      rw [ih (acc ++ [f c]) (fun x hx => h x (List.mem_cons_of_mem c hx))]
      simp

theorem getPageHtmlGo_succ_invalid (env : Nat → GetOutcome) (u : String)
    (fuel : Nat) (st : ClientState) (page : Html)
    (henv : env st.requests = .status 200 page)
    (hbad : _check_page page.text = false) :
    getPageHtmlGo env (some u) (fuel + 1) st =
      getPageHtmlGo env (some u) fuel
        (_change_user_agent { st with requests := st.requests + 1 }) := by
  simp [getPageHtmlGo, henv, pyGetOutcome, hbad]

theorem getPageHtmlGo_succ_caught (env : Nat → GetOutcome) (u : String)
    (fuel : Nat) (st : ClientState) (e : PyErr)
    (herr : pyGetOutcome (env st.requests) = .error e)
    (hcaught : caughtByFetch e = true) :
    getPageHtmlGo env (some u) (fuel + 1) st =
      getPageHtmlGo env (some u) fuel
        (_change_user_agent { st with requests := st.requests + 1 }) := by
  simp [getPageHtmlGo, herr, hcaught]

theorem getPageHtmlGo_ok_valid (env : Nat → GetOutcome) (u : String) :
    ∀ (fuel : Nat) (st st1 : ClientState) (h : Html),
    getPageHtmlGo env (some u) fuel st = (.ok h, st1) →
    _check_page h.text = true := by
  intro fuel
  induction fuel with
  | zero =>
    intro st st1 h heq
    simp [getPageHtmlGo] at heq
  | succ fuel ih =>
    intro st st1 h heq
    simp only [getPageHtmlGo] at heq
    cases ho : pyGetOutcome (env st.requests) with
    | ok page =>
      rw [ho] at heq
      by_cases hc : _check_page page.text
      · simp only [hc, if_true] at heq
        have : page = h := congrArg (fun r => (r.1.toOption.getD emptyHtml)) heq
        rw [← this]
        exact hc
      · simp only [hc, if_false] at heq
        exact ih _ _ _ heq
    | error e =>
      rw [ho] at heq
      by_cases hcaught : caughtByFetch e
      · simp only [hcaught, if_true] at heq
        exact ih _ _ _ heq
      · simp only [hcaught, if_false] at heq
        simp at heq

theorem rotIter_rotations : ∀ (n : Nat) (st : ClientState),
    (rotIter n st).rotations = st.rotations + n := by
  intro n
  induction n with
  | zero => intro st; simp [rotIter]
  | succ n ih =>
    intro st
    simp [rotIter, ih, _change_user_agent]
    omega

theorem getPageHtmlGo_all_fail (env : Nat → GetOutcome) (u : String) :
    ∀ (fuel : Nat) (st : ClientState),
    (∀ i, i < fuel → failsTransiently (env (st.requests + i)) = true) →
    getPageHtmlGo env (some u) fuel st =
      (.error (.valueError "No valid pages found!"), rotIter fuel st) := by
  intro fuel
  induction fuel with
  | zero => intro st _; simp [getPageHtmlGo, rotIter]
  | succ fuel ih =>
    intro st h
    have h0 : failsTransiently (env st.requests) = true := by
      have := h 0 (Nat.succ_pos fuel)
      simpa using this
    have hshift : ∀ i, i < fuel →
        failsTransiently (env ((_change_user_agent { st with requests := st.requests + 1 }).requests + i)) = true := by
      intro i hi
      have := h (i + 1) (Nat.succ_lt_succ hi)
      simp only [_change_user_agent]
      have harith : st.requests + 1 + i = st.requests + (i + 1) := by omega
      rw [harith]
      exact this
    have hrot : rotIter (fuel + 1) st =
        rotIter fuel (_change_user_agent { st with requests := st.requests + 1 }) := rfl
    cases ho : pyGetOutcome (env st.requests) with
    | ok page =>
      have hbad : _check_page page.text = false := by
        unfold failsTransiently at h0
        rw [ho] at h0
        simpa using h0
      cases henv : env st.requests with
      | sslError => rw [henv] at ho; simp [pyGetOutcome] at ho
      | reqConnError => rw [henv] at ho; simp [pyGetOutcome] at ho
      | status code page2 =>
        rw [henv] at ho
        by_cases hcode : code = 200
        · subst hcode
          simp only [pyGetOutcome, ne_eq, not_true_eq_false, if_neg, ite_false,
            reduceIte] at ho
          have hp : page2 = page := by
            simpa using congrArg (fun r => (r.toOption.getD emptyHtml)) ho
          subst hp
          rw [getPageHtmlGo_succ_invalid env u fuel st page2 henv hbad, hrot]
          exact ih _ hshift
        · exfalso
          simp [pyGetOutcome, hcode] at ho
    | error e =>
      have hcaught : caughtByFetch e = true := by
        unfold failsTransiently at h0
        rw [ho] at h0
        exact h0
      rw [getPageHtmlGo_succ_caught env u fuel st e ho hcaught, hrot]
      exact ih _ hshift

/-- C2 counterexample: a fetch whose attempts all raise
`requests.exceptions.ConnectionError` — a transport-level error, so a
sequence the claim as stated quantifies over — does NOT end in the
FetchExhausted `ValueError`: that exception is not a subclass of the builtin
`ConnectionError` named in the `except` clause, so the very first attempt
propagates it to the caller, with zero identity rotations. -/
theorem transport_error_escapes_exhaustion :
    (_get_page_html (fun _ => GetOutcome.reqConnError)
        (some "https://www.amazon.com/s?k=q") initClient).1 =
      .error .requestsConnectionError ∧
    (_get_page_html (fun _ => GetOutcome.reqConnError)
        (some "https://www.amazon.com/s?k=q") initClient).2.rotations = 0 :=
  ⟨rfl, rfl⟩

/-- C2 amended: for every fetch in which all `_MAX_TRIAL_REQUESTS = 5`
attempts fail with one of the failures the `except` clause recovers — a
TLS error (`requests.exceptions.SSLError`), a non-success HTTP status
(raised as the builtin `ConnectionError` by `_get`), or a page failing
`_check_page` — `_get_page_html` raises
`ValueError('No valid pages found!')` (the FetchExhausted signal) instead of
returning, and the identity index was rotated exactly once per failed
attempt: five rotations.  (An attempt raising any other transport error of
the requests library propagates it immediately instead, as the
counterexample above shows.) -/
theorem fetch_exhaustion_signals_and_rotates (env : Nat → GetOutcome)
    (u : String) (st : ClientState)
    (h : ∀ i, i < _MAX_TRIAL_REQUESTS →
      failsTransiently (env (st.requests + i)) = true) :
    (_get_page_html env (some u) st).1 =
      .error (.valueError "No valid pages found!") ∧
    (_get_page_html env (some u) st).2.rotations =
      st.rotations + _MAX_TRIAL_REQUESTS := by
  unfold _get_page_html
  rw [getPageHtmlGo_all_fail env u _MAX_TRIAL_REQUESTS st h]
  exact ⟨rfl, rotIter_rotations _ st⟩

/-- C2 witness: a session whose five attempts all raise `SSLError` ends in
the FetchExhausted `ValueError` with five identity rotations. -/
theorem fetch_exhaustion_signals_and_rotates_witness :
    (_get_page_html (fun _ => GetOutcome.sslError)
        (some "https://www.amazon.com/s?k=q") initClient).1 =
      .error (.valueError "No valid pages found!") ∧
    (_get_page_html (fun _ => GetOutcome.sslError)
        (some "https://www.amazon.com/s?k=q") initClient).2.rotations =
      initClient.rotations + _MAX_TRIAL_REQUESTS :=
  fetch_exhaustion_signals_and_rotates (fun _ => GetOutcome.sslError)
    "https://www.amazon.com/s?k=q" initClient (fun _ _ => rfl)

/-- C6 counterexample: a single attempt failing with
`requests.exceptions.ConnectionError` — a transport-level failure such as a
refused connection, so an attempt the claim as stated quantifies over — is
not recovered even with four trials left in the budget: the `except` clause
does not catch it, so the fetcher propagates the exception with no identity
rotation and no retry. -/
theorem transport_error_not_recovered :
    getPageHtmlGo (fun _ => GetOutcome.reqConnError) (some "u") 5 initClient =
      (.error .requestsConnectionError, { initClient with requests := 1 }) ∧
    ({ initClient with requests := 1 } : ClientState).rotations = 0 :=
  ⟨rfl, rfl⟩

/-- C6 amended: a single attempt failing with a TLS-level error
(`requests.exceptions.SSLError`) or a non-success HTTP status (the builtin
`ConnectionError` raised by `_get`) is recovered locally: the fetcher
rotates the identity (one rotation), sleeps the fixed delay (unmodelled) and
retries with the remaining budget, rather than propagating the exception.
(Transport errors surfacing as other requests-library exceptions propagate
to the caller immediately, as the counterexample above shows.) -/
theorem transient_failure_recovered_locally (env : Nat → GetOutcome)
    (u : String) (st : ClientState) (fuel : Nat) (e : PyErr)
    (herr : pyGetOutcome (env st.requests) = .error e)
    (hkind : e = .sslError ∨ e = .connectionError) :
    getPageHtmlGo env (some u) (fuel + 1) st =
      getPageHtmlGo env (some u) fuel
        (_change_user_agent { st with requests := st.requests + 1 }) ∧
    (_change_user_agent { st with requests := st.requests + 1 }).rotations =
      st.rotations + 1 := by
  have hcaught : caughtByFetch e = true := by
    rcases hkind with h | h <;> subst h <;> rfl
  exact ⟨getPageHtmlGo_succ_caught env u fuel st e herr hcaught, rfl⟩

/-- C6 witness: a first attempt answered with HTTP 500 (a builtin
`ConnectionError` from `_get`) makes the full-budget fetch equal to a
fetch with one less trial from the rotated state. -/
theorem transient_failure_recovered_locally_witness :
    getPageHtmlGo c6Env (some "u") 5 initClient =
      getPageHtmlGo c6Env (some "u") 4
        (_change_user_agent { initClient with requests := initClient.requests + 1 }) ∧
    (_change_user_agent { initClient with requests := initClient.requests + 1 }).rotations =
      initClient.rotations + 1 :=
  transient_failure_recovered_locally c6Env "u" initClient 4
    PyErr.connectionError rfl (Or.inr rfl)

/-- C8: a page containing one of the block-page indicator phrases fails
`_check_page`; `_get_page_html` never returns a page whose content fails
the check; and an attempt answering 200 with such a page triggers a retry
(identity rotation and another trial) instead of returning it. -/
theorem block_page_never_returned (env : Nat → GetOutcome) (u : String)
    (st : ClientState) (page : Html) :
    (∀ content : String,
       invalid_keywords.any (fun k => pyContains content k) = true →
       _check_page content = false) ∧
    (∀ (fuel : Nat) (st1 : ClientState) (h : Html),
       getPageHtmlGo env (some u) fuel st = (.ok h, st1) →
       _check_page h.text = true) ∧
    (∀ fuel : Nat, env st.requests = .status 200 page →
       _check_page page.text = false →
       getPageHtmlGo env (some u) (fuel + 1) st =
         getPageHtmlGo env (some u) fuel
           (_change_user_agent { st with requests := st.requests + 1 })) := by
  refine ⟨?_, ?_, ?_⟩
  · intro content hc
    unfold _check_page
    rw [hc]
    rfl
  · intro fuel st1 h heq
    exact getPageHtmlGo_ok_valid env u fuel st st1 h heq
  · intro fuel henv hbad
    exact getPageHtmlGo_succ_invalid env u fuel st page henv hbad

/-- C8 witness: `"Robot Check"` content is rejected; an environment serving
that block page first and a valid page second makes the fetch skip the block
page (retry from the rotated state) and return only the valid one. -/
theorem block_page_never_returned_witness :
    _check_page "Robot Check" = false ∧
    _check_page goodPage.text = true ∧
    getPageHtmlGo c8Env (some "u") 5 initClient =
      getPageHtmlGo c8Env (some "u") 4
        (_change_user_agent { initClient with requests := initClient.requests + 1 }) := by
  refine ⟨?_, ?_, ?_⟩
  · exact (block_page_never_returned c8Env "u" initClient robotPage).1
      "Robot Check" (by decide)
  · exact (block_page_never_returned c8Env "u" initClient robotPage).2.1 5
      { userAgentIndex := 1, productDictList := [], htmlPages := [],
        baseUrl := none, rotations := 1, requests := 2 } goodPage rfl
  · exact (block_page_never_returned c8Env "u" initClient robotPage).2.2 4
      rfl (by decide)

/-- C1 (code bug witness): a session with target 1000 whose first page
yields ten products and no next-page link does NOT return the ten records —
`_get_products` passes the `None` next-page URL back to `_get_page_html`,
`session.get(None)` raises `requests.exceptions.MissingSchema`, and the
uncaught exception propagates with the ten records stranded in the client
state. -/
theorem collect_no_next_page_crashes :
    (_get_products idJoin c1Env "" "https://www.amazon.com/s?k=laptop"
        1000 5 initClient).1 = .exn .missingSchema ∧
    (_get_products idJoin c1Env "" "https://www.amazon.com/s?k=laptop"
        1000 5 initClient).2.productDictList.length = 10 ∧
    c1Page.nextHref = none := by
  exact ⟨by decide, by decide, rfl⟩

/-- C5 (code bug witness): on a container where the first review-count
selector matches nothing, `_css_select` returns `None`, so
`n_ratings.replace` raises `AttributeError`, which the `except ValueError`
clause does not catch: `_get_n_ratings` raises instead of returning the NaN
sentinel, and the whole product extraction aborts with it.  (`_get_rating`
does degrade to NaN when its pattern is absent.) -/
theorem review_count_selector_miss_raises :
    _get_n_ratings noMatchContainer = .error .attributeError ∧
    _get_rating noMatchContainer = .ok .nan ∧
    productDictOf idJoin (some "https://www.amazon.com/") noMatchContainer =
      .error .attributeError := by
  exact ⟨by decide, by decide, by decide⟩

/-- C4 counterexample: the fragment `($0.00/oz)` parses to the value zero,
yet `_get_prices` does not skip it — the code compares the raw fragment text
(not the parsed value) with the literal `'$0.00'`, so this zero-valued
fragment lands in the per-unit prices as `0.0` with unit `oz`. -/
theorem price_zero_value_not_skipped :
    pyFloat? ((priceSearch "($0.00/oz)").getD "") = some 0 ∧
    _get_prices c4ZeroContainer =
      .ok { prices_per_unit := .float 0, units := .str "oz",
            prices_main := .nan } := by
  exact ⟨by decide, by decide⟩

theorem pricesGo_eq_claimClassifyGo :
    ∀ (l : List (TextNode × String)) (ppu : List ℚ) (us : List String)
      (pm : List ℚ),
    pricesGo l ppu us pm = claimClassifyGo l ppu us pm := by
  intro l
  induction l with
  | nil => intro ppu us pm; rfl
  | cons fg rest ih =>
    intro ppu us pm
    obtain ⟨f, g⟩ := fg
    simp only [pricesGo, claimClassifyGo, claimFragmentRule]
    cases pyFloat? g with
    | none => rfl
    | some amount =>
      by_cases h1 : (f.strike || f.text = "$0.00") = true
      · simp [h1, ih]
      · have h1f : (f.strike || f.text = "$0.00") = false := by
          simpa using h1
        by_cases h2 : (pyStartswith f.text "(" && pyContains f.text "/") = true
        · cases hu : unitExtract f.text with
          | none => simp [h1f, h2, hu]
          | some u => simp [h1f, h2, hu, ih]
        · have h2f : (pyStartswith f.text "(" && pyContains f.text "/") = false := by
            simpa using h2
          simp [h1f, h2f, ih]

/-- C4 amended: for every container, `_get_prices` treats each
currency-matching fragment exactly as the amended rule says — the amount is
parsed first, and a group `float()` rejects (a kept thousands comma, as in
`$1,299.99`) aborts extraction with an uncaught `ValueError`; a fragment is
skipped when its markup is strikethrough-flagged or its whole text is the
literal string `'$0.00'` (not when the parsed value is zero); a fragment
starting with `'('` and containing `'/'` feeds the per-unit price and unit
sets, with `IndexError` aborting when no closing `')'` follows the divider;
every other fragment feeds the main prices.  On the spec example — `$19.99`
normal, `$29.99` strikethrough, `($4.00/oz)` — this yields main 19.99,
per-unit 4.00, unit `oz`; a lone literal `$0.00` fragment is skipped whether
or not it is strikethrough-flagged. -/
theorem price_classification_behavior :
    (∀ p : Container, _get_prices p = claimClassify p) ∧
    (priceSearch "$1,299.99" = some "1,299.99" ∧
     pyFloat? "1,299.99" = none ∧
     _get_prices c4CommaContainer =
       .error (.valueError "could not convert string to float")) ∧
    (_get_prices c4NoParenContainer = .error .indexError) ∧
    _get_prices c4ExampleContainer =
      .ok { prices_per_unit := .float 4, units := .str "oz",
            prices_main := .float (mkRat 1999 100) } ∧
    _get_prices (c4LiteralZeroContainer false) =
      .ok { prices_per_unit := .nan, units := .nan, prices_main := .nan } ∧
    _get_prices (c4LiteralZeroContainer true) =
      .ok { prices_per_unit := .nan, units := .nan, prices_main := .nan } := by
  refine ⟨?_, ⟨by decide, by decide, by decide⟩, by decide, by decide,
    by decide, by decide⟩
  intro p
  unfold _get_prices claimClassify
  exact pricesGo_eq_claimClassifyGo _ _ _ _

/-- C7: `_extract_page` tries the layout schemas in the fixed
`CSS_SELECTORS` order and uses exactly the container list of the first
schema whose product selector yields a non-empty result — never a merge of
two schemas; when no schema matches, the page yields zero products, no
record is appended, and the next-page link is still resolved. -/
theorem layout_first_match_wins (urljoin : String → String → String)
    (page : Html) (max_product_nb : Nat) (st : ClientState) :
    (∀ i, i < (schemaProducts page).length →
       (∀ j, j < i → (schemaProducts page).getD j [] = []) →
       (schemaProducts page).getD i [] ≠ [] →
       resolvedContainers page = (schemaProducts page).getD i []) ∧
    ((∀ l ∈ schemaProducts page, l = []) →
       resolvedContainers page = [] ∧
       _extract_page urljoin page max_product_nb st =
         (match _get_next_page_url urljoin st.baseUrl page with
          | .error e => (.error e, st)
          | .ok next => (.ok next, st))) := by
  constructor
  · intro i hi hb hne
    exact firstNonempty_of_first (schemaProducts page) i hi hb hne
  · intro hall
    have hres : resolvedContainers page = [] :=
      firstNonempty_of_all_empty _ hall
    refine ⟨hres, ?_⟩
    unfold _extract_page
    rw [hres]
    have hloop : extractLoop (productDictOf urljoin st.baseUrl) max_product_nb
        [] st.productDictList = (none, st.productDictList) := rfl
    rw [hloop]

/-- C7 witness: on a page matched by the second schema but not the first,
resolution picks exactly the second schema's containers; on a page no schema
matches, it yields no containers and still resolves the next-page link. -/
theorem layout_first_match_wins_witness :
    resolvedContainers c7Page = (schemaProducts c7Page).getD 1 [] ∧
    resolvedContainers c7NoMatchPage = [] ∧
    _extract_page idJoin c7NoMatchPage 100 initClient =
      (match _get_next_page_url idJoin initClient.baseUrl c7NoMatchPage with
       | .error e => (.error e, initClient)
       | .ok next => (.ok next, initClient)) := by
  refine ⟨?_, ?_, ?_⟩
  · exact (layout_first_match_wins idJoin c7Page 100 initClient).1 1
      (by decide)
      (fun j hj => by
        interval_cases j
        rfl)
      (by
        show ([reviewContainer "3"] : List Container) ≠ []
        exact List.cons_ne_nil _ _)
  · exact ((layout_first_match_wins idJoin c7NoMatchPage 100 initClient).2
      (fun l hl => by
        simp only [schemaProducts, c7NoMatchPage] at hl
        simpa using hl)).1
  · exact ((layout_first_match_wins idJoin c7NoMatchPage 100 initClient).2
      (fun l hl => by
        simp only [schemaProducts, c7NoMatchPage] at hl
        simpa using hl)).2

theorem getPageHtml_first_ok (env : Nat → GetOutcome) (u : String)
    (st : ClientState) (p : Html)
    (henv : env st.requests = .status 200 p)
    (hval : _check_page p.text = true) :
    _get_page_html env (some u) st =
      (.ok p, { st with requests := st.requests + 1 }) := by
  show getPageHtmlGo env (some u) (4 + 1) st = _
  simp [getPageHtmlGo, henv, pyGetOutcome, hval]

theorem extract_page_all_ok (urljoin : String → String → String) (p : Html)
    (max_product_nb : Nat) (st : ClientState) (b : String)
    (f : Container → ProductRecord)
    (hb : st.baseUrl = some b)
    (hext : ∀ c ∈ pageContainers p, productDictOf urljoin (some b) c = .ok (f c)) :
    _extract_page urljoin p max_product_nb st =
      (.ok (p.nextHref.map (urljoin b)),
       { st with productDictList := st.productDictList ++
           ((pageContainers p).take
             (max_product_nb - st.productDictList.length)).map f }) := by
  unfold _extract_page
  rw [hb]
  rw [extractLoop_all_ok (productDictOf urljoin (some b)) max_product_nb f
    (resolvedContainers p) st.productDictList hext]
  cases hn : p.nextHref with
  | none => simp [_get_next_page_url, hn, pageContainers]
  | some href => simp [_get_next_page_url, hn, pageContainers]

theorem pagesToFetch_zero (ls : List (List Container)) :
    pagesToFetch 0 ls = 0 := by
  cases ls <;> simp [pagesToFetch]

theorem pagesToFetch_le : ∀ (ls : List (List Container)) (d : Nat),
    pagesToFetch d ls ≤ ls.length := by
  intro ls
  induction ls with
  | nil => intro d; simp [pagesToFetch]
  | cons cs rest ih =>
    intro d
    by_cases hd : d = 0
    · simp [pagesToFetch, hd]
    · simp only [pagesToFetch, hd, if_false, List.length_cons]
      have := ih (d - cs.length)
      omega

theorem getProductsLoop_done (urljoin : String → String → String)
    (env : Nat → GetOutcome) (max_product_nb fuel : Nat) (url : Option String)
    (st : ClientState) (h : max_product_nb ≤ st.productDictList.length) :
    getProductsLoop urljoin env max_product_nb (fuel + 1) url st =
      (.ok st.productDictList, st) := by
  simp [getProductsLoop, Nat.not_lt.mpr h]

theorem getProductsLoop_session (urljoin : String → String → String)
    (env : Nat → GetOutcome) (f : Container → ProductRecord)
    (max_product_nb : Nat) (b : String) :
    ∀ (pages : List Html) (st : ClientState) (url : String),
    st.baseUrl = some b →
    servesPages env st.requests pages →
    (∀ p ∈ pages, _check_page p.text = true) →
    (∀ p ∈ pages, ∀ c ∈ pageContainers p,
       productDictOf urljoin (some b) c = .ok (f c)) →
    (∀ i, i + 1 < pagesToFetch (max_product_nb - st.productDictList.length)
        (pages.map pageContainers) →
       (pages.getD i emptyHtml).nextHref ≠ none) →
    max_product_nb - st.productDictList.length ≤
      ((pages.map pageContainers).flatten).length →
    (getProductsLoop urljoin env max_product_nb (pages.length + 1)
        (some url) st).1 =
      .ok (st.productDictList ++
        (((pages.map pageContainers).flatten).take
          (max_product_nb - st.productDictList.length)).map f) ∧
    (getProductsLoop urljoin env max_product_nb (pages.length + 1)
        (some url) st).2.productDictList =
      st.productDictList ++
        (((pages.map pageContainers).flatten).take
          (max_product_nb - st.productDictList.length)).map f ∧
    (getProductsLoop urljoin env max_product_nb (pages.length + 1)
        (some url) st).2.htmlPages =
      st.htmlPages ++ pages.take
        (pagesToFetch (max_product_nb - st.productDictList.length)
          (pages.map pageContainers)) := by
  intro pages
  induction pages with
  | nil =>
    intro st url _ _ _ _ _ hsupply
    have hd : max_product_nb - st.productDictList.length = 0 := by
      simpa using hsupply
    have hmax : max_product_nb ≤ st.productDictList.length := by omega
    have hloop : getProductsLoop urljoin env max_product_nb 1 (some url) st =
        (.ok st.productDictList, st) := by
      simp [getProductsLoop, Nat.not_lt.mpr hmax]
    refine ⟨?_, ?_, ?_⟩ <;>
      simp [hloop, hd, pagesToFetch]
  | cons p rest ih =>
    intro st url hb hserve hvalid hext hnext hsupply
    by_cases hd0 : max_product_nb - st.productDictList.length = 0
    · have hmax : max_product_nb ≤ st.productDictList.length := by omega
      have hloop : getProductsLoop urljoin env max_product_nb
          (rest.length + 1 + 1) (some url) st =
          (.ok st.productDictList, st) := by
        simp [getProductsLoop, Nat.not_lt.mpr hmax]
      refine ⟨?_, ?_, ?_⟩ <;>
        simp [hloop, hd0, pagesToFetch]
    · -- the deficit is positive: this page is fetched and extracted
      have hlt : st.productDictList.length < max_product_nb := by omega
      have henv0 : env st.requests = .status 200 p := by
        have := hserve 0 (by simp)
        simpa using this
      have hval0 : _check_page p.text = true :=
        hvalid p (List.mem_cons_self p rest)
      have hext0 : ∀ c ∈ pageContainers p,
          productDictOf urljoin (some b) c = .ok (f c) :=
        hext p (List.mem_cons_self p rest)
      have hfetch := getPageHtml_first_ok env url st p henv0 hval0
      have hextract := extract_page_all_ok urljoin p max_product_nb
        { st with requests := st.requests + 1,
                  htmlPages := st.htmlPages ++ [p] } b f hb hext0
      have hunfold : getProductsLoop urljoin env max_product_nb
          ((p :: rest).length + 1) (some url) st =
          getProductsLoop urljoin env max_product_nb (rest.length + 1)
            (p.nextHref.map (urljoin b))
            { st with requests := st.requests + 1,
                      htmlPages := st.htmlPages ++ [p],
                      productDictList := st.productDictList ++
                        ((pageContainers p).take
                          (max_product_nb - st.productDictList.length)).map f } := by
        show getProductsLoop urljoin env max_product_nb
          (rest.length + 1 + 1) (some url) st = _
        simp only [getProductsLoop, if_pos hlt, hfetch]
        rw [hextract]
      rw [hunfold]
      have hflat : ((p :: rest).map pageContainers).flatten =
          pageContainers p ++ ((rest.map pageContainers)).flatten := by
        simp
      have hKdef : pagesToFetch (max_product_nb - st.productDictList.length)
          ((p :: rest).map pageContainers) =
          1 + pagesToFetch ((max_product_nb - st.productDictList.length) -
            (pageContainers p).length) (rest.map pageContainers) := by
        simp [pagesToFetch, hd0]
      by_cases hfin : max_product_nb - st.productDictList.length ≤
          (pageContainers p).length
      · -- the target is reached inside this page: the loop stops here
        have hlen3 : (st.productDictList ++
            ((pageContainers p).take
              (max_product_nb - st.productDictList.length)).map f).length =
            max_product_nb := by
          simp [List.length_take]
          omega
        have hloop2 : getProductsLoop urljoin env max_product_nb
            (rest.length + 1) (p.nextHref.map (urljoin b))
            { st with requests := st.requests + 1,
                      htmlPages := st.htmlPages ++ [p],
                      productDictList := st.productDictList ++
                        ((pageContainers p).take
                          (max_product_nb - st.productDictList.length)).map f } =
            (.ok (st.productDictList ++
               ((pageContainers p).take
                 (max_product_nb - st.productDictList.length)).map f),
             { st with requests := st.requests + 1,
                       htmlPages := st.htmlPages ++ [p],
                       productDictList := st.productDictList ++
                         ((pageContainers p).take
                           (max_product_nb - st.productDictList.length)).map f }) :=
          getProductsLoop_done urljoin env max_product_nb rest.length
            (p.nextHref.map (urljoin b)) _ (by
              show max_product_nb ≤ (st.productDictList ++
                ((pageContainers p).take
                  (max_product_nb - st.productDictList.length)).map f).length
              rw [hlen3])
        have hK1 : pagesToFetch (max_product_nb - st.productDictList.length)
            ((p :: rest).map pageContainers) = 1 := by
          rw [hKdef, Nat.sub_eq_zero_of_le hfin, pagesToFetch_zero]
        refine ⟨?_, ?_, ?_⟩
        · rw [hloop2, hflat, List.take_append_of_le_length hfin]
        · rw [hloop2, hflat, List.take_append_of_le_length hfin]
        · rw [hloop2, hK1]
          simp
      · -- this page is exhausted and the loop continues on the next one
        have hlt2 : (pageContainers p).length <
            max_product_nb - st.productDictList.length := Nat.lt_of_not_le hfin
        have htake : (pageContainers p).take
            (max_product_nb - st.productDictList.length) = pageContainers p :=
          List.take_of_length_le (Nat.le_of_lt hlt2)
        have hKpos : 2 ≤ pagesToFetch (max_product_nb - st.productDictList.length)
            ((p :: rest).map pageContainers) := by
          rw [hKdef]
          have hrest0 : (rest.map pageContainers).flatten.length ≠ 0 := by
            rw [hflat, List.length_append] at hsupply
            omega
          have hrest1 : rest.map pageContainers ≠ [] := by
            intro hcon
            rw [hcon] at hrest0
            simp at hrest0
          cases hrc : rest.map pageContainers with
          | nil => exact absurd hrc hrest1
          | cons cs2 rc2 =>
            have : pagesToFetch ((max_product_nb - st.productDictList.length) -
                (pageContainers p).length) (cs2 :: rc2) =
                1 + pagesToFetch (((max_product_nb - st.productDictList.length) -
                  (pageContainers p).length) - cs2.length) rc2 := by
              simp [pagesToFetch]
              omega
            omega
        have hne0 : p.nextHref ≠ none := by
          refine hnext 0 ?_
          omega
        obtain ⟨href, hhref⟩ : ∃ h, p.nextHref = some h := by
          cases hh : p.nextHref with
          | none => exact absurd hh hne0
          | some h => exact ⟨h, rfl⟩
        have hih := ih
          { st with requests := st.requests + 1,
                    htmlPages := st.htmlPages ++ [p],
                    productDictList := st.productDictList ++
                      ((pageContainers p).take
                        (max_product_nb - st.productDictList.length)).map f }
          (urljoin b href)
          hb
          (by
            intro i hi
            have := hserve (i + 1) (by simpa using Nat.succ_lt_succ hi)
            have harith : st.requests + 1 + i = st.requests + (i + 1) := by omega
            simpa [harith] using this)
          (fun q hq => hvalid q (List.mem_cons_of_mem p hq))
          (fun q hq => hext q (List.mem_cons_of_mem p hq))
          (by
            intro i hi
            have hdnew : max_product_nb -
                (st.productDictList ++
                  ((pageContainers p).take
                    (max_product_nb - st.productDictList.length)).map f).length =
                (max_product_nb - st.productDictList.length) -
                  (pageContainers p).length := by
              rw [htake]
              simp
              omega
            rw [hdnew] at hi
            have := hnext (i + 1) (by rw [hKdef]; omega)
            simpa using this)
          (by
            have hdnew : max_product_nb -
                (st.productDictList ++
                  ((pageContainers p).take
                    (max_product_nb - st.productDictList.length)).map f).length =
                (max_product_nb - st.productDictList.length) -
                  (pageContainers p).length := by
              rw [htake]
              simp
              omega
            rw [hdnew]
            rw [hflat, List.length_append] at hsupply
            omega)
        have hdnew : max_product_nb -
            (st.productDictList ++
              ((pageContainers p).take
                (max_product_nb - st.productDictList.length)).map f).length =
            (max_product_nb - st.productDictList.length) -
              (pageContainers p).length := by
          rw [htake]
          simp
          omega
        rw [hhref]
        simp only [Option.map_some']
        obtain ⟨hih1, hih2, hih3⟩ := hih
        rw [hdnew] at hih1 hih2 hih3
        refine ⟨?_, ?_, ?_⟩
        · rw [hih1, hflat, List.take_append_eq_append_take, htake]
          simp [List.append_assoc]
        · rw [hih2, hflat, List.take_append_eq_append_take, htake]
          simp [List.append_assoc]
        · rw [hih3, hKdef]
          have : (1 + pagesToFetch ((max_product_nb - st.productDictList.length) -
              (pageContainers p).length) (rest.map pageContainers)) =
              (pagesToFetch ((max_product_nb - st.productDictList.length) -
                (pageContainers p).length) (rest.map pageContainers)) + 1 := by
            omega
          rw [this, List.take_succ_cons]
          simp

/-- C3: in every session whose visited pages supply at least the target
number of products (with next-page links wherever another page is needed and
all extractions succeeding), `_get_products` returns exactly
`max_product_nb` records — the per-container length check stops appending
mid-page once the target is reached — and fetches exactly the pages needed
to get there, none afterwards. -/
theorem collect_stops_at_target (urljoin : String → String → String)
    (env : Nat → GetOutcome) (f : Container → ProductRecord)
    (keywords search_url : String) (max_product_nb : Nat)
    (pages : List Html) (st st1 : ClientState) (b : String)
    (hne : search_url ≠ "")
    (hHdr : _update_headers search_url st = .ok st1)
    (hb : st1.baseUrl = some b)
    (hserve : servesPages env st1.requests pages)
    (hvalid : ∀ p ∈ pages, _check_page p.text = true)
    (hext : ∀ p ∈ pages, ∀ c ∈ pageContainers p,
       productDictOf urljoin (some b) c = .ok (f c))
    (hnext : ∀ i, i + 1 < pagesToFetch
        (max_product_nb - st1.productDictList.length)
        (pages.map pageContainers) →
       (pages.getD i emptyHtml).nextHref ≠ none)
    (hsupply : max_product_nb - st1.productDictList.length ≤
      ((pages.map pageContainers).flatten).length)
    (htarget : st1.productDictList.length ≤ max_product_nb) :
    (_get_products urljoin env keywords search_url max_product_nb
        (pages.length + 1) st).1 =
      .ok (st1.productDictList ++
        (((pages.map pageContainers).flatten).take
          (max_product_nb - st1.productDictList.length)).map f) ∧
    (st1.productDictList ++
        (((pages.map pageContainers).flatten).take
          (max_product_nb - st1.productDictList.length)).map f).length =
      max_product_nb ∧
    (_get_products urljoin env keywords search_url max_product_nb
        (pages.length + 1) st).2.htmlPages.length =
      st1.htmlPages.length + pagesToFetch
        (max_product_nb - st1.productDictList.length)
        (pages.map pageContainers) := by
  have hsession := getProductsLoop_session urljoin env f max_product_nb b
    pages st1 search_url hb hserve hvalid hext hnext hsupply
  have hprod : _get_products urljoin env keywords search_url max_product_nb
      (pages.length + 1) st =
      getProductsLoop urljoin env max_product_nb (pages.length + 1)
        (some search_url) st1 := by
    unfold _get_products
    simp only [if_neg hne, hHdr]
  refine ⟨?_, ?_, ?_⟩
  · rw [hprod]
    exact hsession.1
  · simp only [List.length_append, List.length_map, List.length_take]
    omega
  · rw [hprod, hsession.2.2]
    have hle : pagesToFetch (max_product_nb - st1.productDictList.length)
        (pages.map pageContainers) ≤ pages.length := by
      have := pagesToFetch_le (pages.map pageContainers)
        (max_product_nb - st1.productDictList.length)
      simpa using this
    simp only [List.length_append, List.length_take]
    omega

/-- C3 witness: the spec example — target 5, two pages yielding 3 then 4
products, each with a next-page link — returns exactly the first five
records in order and fetches exactly two pages. -/
theorem collect_stops_at_target_witness :
    (_get_products idJoin c3Env "" "https://www.amazon.com/s?k=phone" 5 3
        initClient).1 =
      .ok [reviewRecord "1", reviewRecord "2", reviewRecord "3",
           reviewRecord "4", reviewRecord "5"] ∧
    (_get_products idJoin c3Env "" "https://www.amazon.com/s?k=phone" 5 3
        initClient).2.htmlPages.length = 2 := by
  have h := collect_stops_at_target idJoin c3Env extractTotal ""
    "https://www.amazon.com/s?k=phone" 5 [c3Page1, c3Page2] initClient
    { initClient with baseUrl := some "https://www.amazon.com/" }
    "https://www.amazon.com/"
    (by decide) rfl rfl
    (fun i hi => by
      simp only [List.length_cons, List.length_nil] at hi
      interval_cases i <;> rfl)
    (fun p hp => by
      simp only [List.mem_cons, List.not_mem_nil, or_false] at hp
      rcases hp with rfl | rfl <;> decide)
    (fun p hp c hc => by
      simp only [List.mem_cons, List.not_mem_nil, or_false] at hp
      rcases hp with rfl | rfl
      · have hc1 : c ∈ [reviewContainer "1", reviewContainer "2",
            reviewContainer "3"] := hc
        simp only [List.mem_cons, List.not_mem_nil, or_false] at hc1
        rcases hc1 with rfl | rfl | rfl <;> rfl
      · have hc1 : c ∈ [reviewContainer "4", reviewContainer "5",
            reviewContainer "6", reviewContainer "7"] := hc
        simp only [List.mem_cons, List.not_mem_nil, or_false] at hc1
        rcases hc1 with rfl | rfl | rfl | rfl <;> rfl)
    (fun i hi => by
      have h2 : pagesToFetch
          (5 - ({ initClient with
            baseUrl := some "https://www.amazon.com/" }).productDictList.length)
          ([c3Page1, c3Page2].map pageContainers) = 2 := rfl
      rw [h2] at hi
      rcases i with _ | i
      · decide
      · omega)
    (by decide) (by decide)
  rw [show (3 : Nat) = [c3Page1, c3Page2].length + 1 from rfl]
  refine ⟨?_, ?_⟩
  · rw [h.1]
    decide
  · rw [h.2.2]
    decide

/-- C10: the output sequence preserves source order — in every session meeting
the supply/validity hypotheses of the collection loop, the returned record
list is the initial list followed by the extraction images of the visited
containers in page order then container order (a prefix of the concatenation
of the pages' container lists, pages visited in next-link order), and
`html_pages` grows by exactly the visited pages, in order. -/
theorem output_preserves_source_order (urljoin : String → String → String)
    (env : Nat → GetOutcome) (f : Container → ProductRecord)
    (keywords search_url : String) (max_product_nb : Nat)
    (pages : List Html) (st st1 : ClientState) (b : String)
    (hne : search_url ≠ "")
    (hHdr : _update_headers search_url st = .ok st1)
    (hb : st1.baseUrl = some b)
    (hserve : servesPages env st1.requests pages)
    (hvalid : ∀ p ∈ pages, _check_page p.text = true)
    (hext : ∀ p ∈ pages, ∀ c ∈ pageContainers p,
       productDictOf urljoin (some b) c = .ok (f c))
    (hnext : ∀ i, i + 1 < pagesToFetch
        (max_product_nb - st1.productDictList.length)
        (pages.map pageContainers) →
       (pages.getD i emptyHtml).nextHref ≠ none)
    (hsupply : max_product_nb - st1.productDictList.length ≤
      ((pages.map pageContainers).flatten).length) :
    (_get_products urljoin env keywords search_url max_product_nb
        (pages.length + 1) st).1 =
      .ok (st1.productDictList ++
        (((pages.map pageContainers).flatten).take
          (max_product_nb - st1.productDictList.length)).map f) ∧
    (_get_products urljoin env keywords search_url max_product_nb
        (pages.length + 1) st).2.htmlPages =
      st1.htmlPages ++ pages.take
        (pagesToFetch (max_product_nb - st1.productDictList.length)
          (pages.map pageContainers)) := by
  have hsession := getProductsLoop_session urljoin env f max_product_nb b
    pages st1 search_url hb hserve hvalid hext hnext hsupply
  have hprod : _get_products urljoin env keywords search_url max_product_nb
      (pages.length + 1) st =
      getProductsLoop urljoin env max_product_nb (pages.length + 1)
        (some search_url) st1 := by
    unfold _get_products
    simp only [if_neg hne, hHdr]
  exact ⟨by rw [hprod]; exact hsession.1, by rw [hprod]; exact hsession.2.2⟩

/-- C10 witness: with pages carrying products 21, 22 and then 23 and target
3, the output is exactly those three records in page-then-container order
and the pages were visited in next-link order. -/
theorem output_preserves_source_order_witness :
    (_get_products idJoin c10Env "" "https://www.amazon.com/s?k=tea" 3 3
        initClient).1 =
      .ok [reviewRecord "21", reviewRecord "22", reviewRecord "23"] ∧
    (_get_products idJoin c10Env "" "https://www.amazon.com/s?k=tea" 3 3
        initClient).2.htmlPages = [c10Page1, c10Page2] := by
  have h := output_preserves_source_order idJoin c10Env extractTotal ""
    "https://www.amazon.com/s?k=tea" 3 [c10Page1, c10Page2] initClient
    { initClient with baseUrl := some "https://www.amazon.com/" }
    "https://www.amazon.com/"
    (by decide) rfl rfl
    (fun i hi => by
      simp only [List.length_cons, List.length_nil] at hi
      interval_cases i <;> rfl)
    (fun p hp => by
      simp only [List.mem_cons, List.not_mem_nil, or_false] at hp
      rcases hp with rfl | rfl <;> decide)
    (fun p hp c hc => by
      simp only [List.mem_cons, List.not_mem_nil, or_false] at hp
      rcases hp with rfl | rfl
      · have hc1 : c ∈ [reviewContainer "21", reviewContainer "22"] := hc
        simp only [List.mem_cons, List.not_mem_nil, or_false] at hc1
        rcases hc1 with rfl | rfl <;> rfl
      · have hc1 : c ∈ [reviewContainer "23"] := hc
        simp only [List.mem_cons, List.not_mem_nil, or_false] at hc1
        rcases hc1 with rfl
        rfl)
    (fun i hi => by
      have h2 : pagesToFetch
          (3 - ({ initClient with
            baseUrl := some "https://www.amazon.com/" }).productDictList.length)
          ([c10Page1, c10Page2].map pageContainers) = 2 := rfl
      rw [h2] at hi
      rcases i with _ | i
      · decide
      · omega)
    (by decide)
  nth_rewrite 2 4 [show (3 : Nat) = [c10Page1, c10Page2].length + 1 from rfl]
  refine ⟨?_, ?_⟩
  · rw [h.1]
    decide
  · rw [h.2]
    show ({ initClient with
        baseUrl := some "https://www.amazon.com/" }).htmlPages ++
      [c10Page1, c10Page2].take (pagesToFetch (3 - 0)
        ([c10Page1, c10Page2].map pageContainers)) = [c10Page1, c10Page2]
    rfl

theorem update_headers_fields (u : String) (st st1 : ClientState)
    (h : _update_headers u st = .ok st1) :
    st1.productDictList = st.productDictList ∧
    st1.htmlPages = st.htmlPages := by
  unfold _update_headers at h
  rcases hsplit : (pySplit u "://").drop 1 with _ | ⟨p, rest⟩ <;>
    rw [hsplit] at h
  · exact absurd h (by simp)
  · dsimp only at h
    rcases hsplit2 : pySplit p "/" with _ | ⟨d, r⟩ <;> rw [hsplit2] at h
    · injection h with h
      subst h
      exact ⟨rfl, rfl⟩
    · injection h with h
      subst h
      exact ⟨rfl, rfl⟩

/-- C9 counterexample: on one client, a first session with target 1 collects
one record; a second invocation of `_get_products` on the same client with
target 1 does not start from an empty sequence — it returns the first
session's record unchanged and fetches no page at all (`html_pages` does not
grow), because `product_dict_list` is instance state that is never reset. -/
theorem records_persist_across_sessions :
    c9Run1.1 = .ok [reviewRecord "7"] ∧
    c9Run2.1 = .ok [reviewRecord "7"] ∧
    c9Run1.2.htmlPages.length = 1 ∧
    c9Run2.2.htmlPages.length = 1 := by
  exact ⟨by decide, by decide, by decide, by decide⟩

/-- C9 amended: the record sequence is owned by the client instance, not by
one scraping session: `_get_products` never resets `product_dict_list`, so a
later invocation on the same client starts from the records already
accumulated and counts them toward its target — when they already cover the
target it returns them as they are and fetches nothing.  Only a freshly
constructed client (`__init__`) starts from an empty sequence. -/
theorem records_are_client_scoped (urljoin : String → String → String)
    (env : Nat → GetOutcome) (keywords search_url : String)
    (max_product_nb fuel : Nat) (st st1 : ClientState)
    (hne : search_url ≠ "")
    (hHdr : _update_headers search_url st = .ok st1)
    (hfull : max_product_nb ≤ st.productDictList.length) :
    _get_products urljoin env keywords search_url max_product_nb (fuel + 1) st =
      (.ok st.productDictList, st1) ∧
    st1.productDictList = st.productDictList ∧
    st1.htmlPages = st.htmlPages ∧
    initClient.productDictList = [] := by
  obtain ⟨hf1, hf2⟩ := update_headers_fields search_url st st1 hHdr
  have hfull1 : max_product_nb ≤ st1.productDictList.length := by
    rw [hf1]
    exact hfull
  have hrun : _get_products urljoin env keywords search_url max_product_nb
      (fuel + 1) st =
      getProductsLoop urljoin env max_product_nb (fuel + 1)
        (some search_url) st1 := by
    unfold _get_products
    simp only [if_neg hne, hHdr]
  rw [hrun, getProductsLoop_done urljoin env max_product_nb fuel _ st1 hfull1,
    hf1]
  exact ⟨rfl, rfl, hf2, rfl⟩

/-- C9 witness: applying the amended statement to the client state left by
the first concrete session — the second call returns the carried-over
record list without any fetching, and a fresh client starts empty. -/
theorem records_are_client_scoped_witness :
    _get_products idJoin c9Env "" "https://www.amazon.com/s?k=q" 1 3 c9Run1.2 =
      (.ok c9Run1.2.productDictList,
       { c9Run1.2 with baseUrl := some "https://www.amazon.com/" }) ∧
    initClient.productDictList = [] := by
  have h := records_are_client_scoped idJoin c9Env ""
    "https://www.amazon.com/s?k=q" 1 2 c9Run1.2
    { c9Run1.2 with baseUrl := some "https://www.amazon.com/" }
    (by decide) rfl (by decide)
  exact ⟨h.1, h.2.2.2⟩
